import Mathlib

/-!
Verification of the cafeteria-management backend (`src/main.py`, `src/schemas.py`).

The HTTP handlers are shallowly embedded as pure functions over an explicit
`Store` state.  Python floats are modelled as exact rationals (`ℚ`), with
Python's `round(x, 2)` (round-half-to-even) modelled by `round2`.  A raised
`HTTPException` (and an uncaught pydantic `ValidationError`, which the
framework turns into a generic 500 response) is modelled by `Except.error`
carrying the HTTP status and detail; since every store write in the handlers
happens only after all checks passed, an error leaves the store unchanged,
which the `*_endpoint` wrappers make explicit.

The store layer itself (`database.py`: `db`, `create_document`,
`get_documents`) is not part of the sources.  Modelled from the spec: records
live in per-collection lists, creation appends a record carrying a fresh
opaque identifier and returns that identifier in string form, and reads
return the collection as stored.  Store identifiers are modelled in their
canonical string rendering (24 hexadecimal characters, as produced by
`oidString`), so that `str(ObjectId(s)) = s` for store-assigned ids.
-/

namespace Cafeteria

/-- A hexadecimal digit, as accepted by `bson.ObjectId` for 24-character ids. -/
def isHexChar (c : Char) : Bool :=
  ('0' ≤ c && c ≤ '9') || ('a' ≤ c && c ≤ 'f') || ('A' ≤ c && c ≤ 'F')

/-- `ObjectId(s)` succeeds on a string exactly when it is 24 hex characters. -/
def isValidOid (s : String) : Bool :=
  s.data.length == 24 && s.data.all isHexChar

/-- Hex digit character for a value below 16 (lowercase, as `str(ObjectId)`). -/
def hexChar (n : Nat) : Char :=
  if n < 10 then Char.ofNat (48 + n) else Char.ofNat (87 + n)

/-- Modelled from the spec: the opaque unique identifier the store assigns to
the `n`-th created record, in its canonical (lowercase hex) string form. -/
def oidString (n : Nat) : String :=
  String.mk (((List.range 24).map fun i => hexChar (n / 16 ^ (23 - i) % 16)))

/-- An HTTP error response: a raised `HTTPException`, or the framework-default
500 produced from an exception that escapes the handler. -/
structure HttpErr where
  status : Nat
  detail : String
  deriving DecidableEq

/-- The 400 raised by the `oid` helper on a malformed identifier string. -/
def invalidIdErr : HttpErr := ⟨400, "Invalid id"⟩

/-- The framework-default response to an exception escaping a handler. -/
def serverErr : HttpErr := ⟨500, "Internal Server Error"⟩

/-- Round half to even, as Python's builtin `round` does. -/
def rhe (x : ℚ) : ℤ :=
  if x - ⌊x⌋ < 1 / 2 then ⌊x⌋
  else if 1 / 2 < x - ⌊x⌋ then ⌊x⌋ + 1
  else if ⌊x⌋ % 2 = 0 then ⌊x⌋ else ⌊x⌋ + 1

/-- Python's `round(x, 2)`. -/
def round2 (x : ℚ) : ℚ := (rhe (x * 100) : ℚ) / 100

/-- A stored `menuitem` document (`Menuitem` in `schemas.py`), with its
store-assigned identifier. -/
structure MenuDoc where
  id : String
  title : String
  description : Option String
  price : ℚ
  category : Option String
  available : Bool
  deriving DecidableEq

/-- One line of a stored order, as built by `create_order`: quantity plus the
price and title snapshotted from the referenced menu item. -/
structure OrderLine where
  menu_item_id : String
  quantity : ℤ
  price : ℚ
  title : String
  deriving DecidableEq

/-- A stored `order` document (`Order` in `schemas.py`). -/
structure OrderDoc where
  id : String
  staff_id : Option String
  items : List OrderLine
  subtotal : ℚ
  tax : ℚ
  total : ℚ
  status : String
  note : Option String
  deriving DecidableEq

/-- A stored `inventory` document (`Inventory` in `schemas.py`). -/
structure InvDoc where
  id : String
  sku : String
  quantity : ℚ
  unit : String
  reorder_level : Option ℚ
  deriving DecidableEq

/-- A stored `staff` document (`Staff` in `schemas.py`). -/
structure StaffDoc where
  id : String
  name : String
  role : String
  pin : String
  is_active : Bool
  deriving DecidableEq

/-- Modelled from the spec: the document store's four collections, plus the
counter from which fresh record identifiers are drawn. -/
structure Store where
  menuitem : List MenuDoc
  order : List OrderDoc
  inventory : List InvDoc
  staff : List StaffDoc
  nextId : Nat
  deriving DecidableEq

/-- The `MenuCreate` request body. -/
structure MenuCreate where
  title : String
  description : Option String := none
  price : ℚ
  category : Option String := none
  available : Bool := true
  deriving DecidableEq

/-- The `OrderItem` request component: `quantity : int` is unconstrained. -/
structure OrderItem where
  menu_item_id : String
  quantity : ℤ
  deriving DecidableEq

/-- The `OrderCreate` request body. -/
structure OrderCreate where
  staff_id : Option String := none
  items : List OrderItem
  note : Option String := none
  deriving DecidableEq

/-- The `InventoryUpsert` request body. -/
structure InventoryUpsert where
  sku : String
  quantity : ℚ
  unit : String := "unit"
  reorder_level : Option ℚ := none
  deriving DecidableEq

/-- The `StaffCreate` request body: `pin : str` is unconstrained here. -/
structure StaffCreate where
  name : String
  role : String
  pin : String
  deriving DecidableEq

/-- The `{id}` body returned by the creation endpoints. -/
structure IdResp where
  id : String
  deriving DecidableEq

/-- The body returned by `POST /api/orders`. -/
structure OrderResp where
  id : String
  subtotal : ℚ
  tax : ℚ
  total : ℚ
  deriving DecidableEq

/-- The body returned by `POST /api/auth/login`. -/
structure LoginResp where
  id : String
  name : String
  role : String
  deriving DecidableEq

/-- `GET /api/menu`: all menu documents, identifiers rendered as strings
(identifiers are modelled in their string rendering, so the `str` conversion
is the identity here). -/
def list_menu (st : Store) : List MenuDoc :=
  st.menuitem

/-- `POST /api/menu`.  The request model `MenuCreate` has no constraint on
`price`; the handler then builds the storage model `Menuitem`, whose
`ge=0` constraint raises a `ValidationError` inside the handler for a
negative price — an uncaught exception, i.e. a framework-default 500. -/
def create_menu_item (st : Store) (p : MenuCreate) : Except HttpErr (Store × IdResp) :=
  if p.price < 0 then .error serverErr
  else
    .ok ({ st with
            menuitem := st.menuitem ++
              [⟨oidString st.nextId, p.title, p.description, p.price, p.category, p.available⟩],
            nextId := st.nextId + 1 },
         ⟨oidString st.nextId⟩)

/-- `ids = [oid(i.menu_item_id) for i in payload.items]`: the first malformed
identifier raises the 400 "Invalid id" from `oid`. -/
def checkIds : List OrderItem → Except HttpErr Unit
  | [] => .ok ()
  | it :: rest =>
    if isValidOid it.menu_item_id then checkIds rest else .error invalidIdErr

/-- The pricing loop of `create_order`: for each requested line, look the
identifier up in the fetched menu map (equivalently, among the stored menu
documents, ids being canonical strings); the first absent identifier raises
the 400 naming it, otherwise the line is built with snapshotted price/title. -/
def buildLines (st : Store) : List OrderItem → Except HttpErr (List OrderLine)
  | [] => .ok []
  | it :: rest =>
    match st.menuitem.find? (fun d => d.id == it.menu_item_id) with
    | none => .error ⟨400, "Menu item not found: " ++ it.menu_item_id⟩
    | some m =>
      (buildLines st rest).map fun ls => ⟨it.menu_item_id, it.quantity, m.price, m.title⟩ :: ls

/-- `POST /api/orders` (status 201 on success): validate ids, price the lines,
accumulate the subtotal in full precision, round at the boundaries, then
persist.  The stored `Order` model constrains `subtotal`, `tax` and `total`
to be non-negative; a violation raises inside the handler, i.e. a
framework-default 500. -/
def create_order (st : Store) (p : OrderCreate) : Except HttpErr (Store × OrderResp) :=
  match checkIds p.items with
  | .error e => .error e
  | .ok () =>
    match buildLines st p.items with
    | .error e => .error e
    | .ok lines =>
      let subtotal : ℚ := lines.foldl (fun a l => a + l.price * (l.quantity : ℚ)) 0
      let tax := round2 (subtotal * (7 / 100))
      let total := round2 (subtotal + tax)
      if round2 subtotal < 0 ∨ tax < 0 ∨ total < 0 then .error serverErr
      else
        .ok ({ st with
                order := st.order ++
                  [⟨oidString st.nextId, p.staff_id, lines, round2 subtotal, tax, total,
                    "open", p.note⟩],
                nextId := st.nextId + 1 },
             ⟨oidString st.nextId, round2 subtotal, tax, total⟩)

/-- The price of the stored menu item with the given id (`m.get("price", 0)`
applied to the first matching document, 0 when none matches). -/
def menuPriceD (st : Store) (s : String) : ℚ :=
  ((st.menuitem.find? fun d => d.id == s).map MenuDoc.price).getD 0

/-- The title of the stored menu item with the given id. -/
def menuTitleD (st : Store) (s : String) : String :=
  ((st.menuitem.find? fun d => d.id == s).map MenuDoc.title).getD ""

/-- The order line `create_order` builds for a request item whose menu item
is present. -/
def lineOf (st : Store) (it : OrderItem) : OrderLine :=
  ⟨it.menu_item_id, it.quantity, menuPriceD st it.menu_item_id, menuTitleD st it.menu_item_id⟩

/-- Σ pᵢ·qᵢ over the requested lines, in full precision: the specification's
subtotal before rounding. -/
def specSubtotal (st : Store) (items : List OrderItem) : ℚ :=
  (items.map fun it => menuPriceD st it.menu_item_id * (it.quantity : ℚ)).sum

/-- `POST /api/orders` as observed over HTTP: resulting store, status code,
and body.  A raised error leaves the store untouched (the only write comes
after every check). -/
def create_order_endpoint (st : Store) (p : OrderCreate) :
    Store × Nat × Except HttpErr OrderResp :=
  match create_order st p with
  | .ok (st', r) => (st', 201, .ok r)
  | .error e => (st, e.status, .error e)

/-- `POST /api/menu` as observed over HTTP. -/
def create_menu_item_endpoint (st : Store) (p : MenuCreate) :
    Store × Nat × Except HttpErr IdResp :=
  match create_menu_item st p with
  | .ok (st', r) => (st', 201, .ok r)
  | .error e => (st, e.status, .error e)

/-- `update_one` with a `$set` on quantity/unit/reorder_level: rewrites the
first document carrying the given `_id`, leaving everything else in place. -/
def updateById : List InvDoc → String → InventoryUpsert → List InvDoc
  | [], _, _ => []
  | d :: rest, i, item =>
    if d.id == i then
      { d with quantity := item.quantity, unit := item.unit,
               reorder_level := item.reorder_level } :: rest
    else d :: updateById rest i item

/-- `POST /api/inventory`: find by `sku`; update the found record in place and
return its id, or else create a new record and return the new id. -/
def upsert_inventory (st : Store) (item : InventoryUpsert) : Store × IdResp :=
  match st.inventory.find? (fun d => d.sku == item.sku) with
  | some existing =>
    ({ st with inventory := updateById st.inventory existing.id item }, ⟨existing.id⟩)
  | none =>
    ({ st with
        inventory := st.inventory ++
          [⟨oidString st.nextId, item.sku, item.quantity, item.unit, item.reorder_level⟩],
        nextId := st.nextId + 1 },
     ⟨oidString st.nextId⟩)

/-- `POST /api/staff`.  As with the menu, the `min_length=4, max_length=8`
constraint on `pin` lives on the storage model `Staff` built inside the
handler, so a violation is an uncaught exception: a framework-default 500. -/
def create_staff (st : Store) (p : StaffCreate) : Except HttpErr (Store × IdResp) :=
  if p.pin.length < 4 ∨ 8 < p.pin.length then .error serverErr
  else
    .ok ({ st with
            staff := st.staff ++ [⟨oidString st.nextId, p.name, p.role, p.pin, true⟩],
            nextId := st.nextId + 1 },
         ⟨oidString st.nextId⟩)

/-- `POST /api/staff` as observed over HTTP. -/
def create_staff_endpoint (st : Store) (p : StaffCreate) :
    Store × Nat × Except HttpErr IdResp :=
  match create_staff st p with
  | .ok (st', r) => (st', 201, .ok r)
  | .error e => (st, e.status, .error e)

/-- `POST /api/auth/login`: `find_one({"pin": pin, "is_active": True})`,
401 "Invalid PIN" when nothing matches. -/
def login (st : Store) (pin : String) : Except HttpErr LoginResp :=
  match st.staff.find? (fun d => d.pin == pin && d.is_active) with
  | some d => .ok ⟨d.id, d.name, d.role⟩
  | none => .error ⟨401, "Invalid PIN"⟩

/-- The body of the `GET /test` diagnostics response. -/
structure DiagStatus where
  backend : String
  database : String
  database_url : Option String
  database_name : Option String
  connection_status : String
  collections : List String
  deriving DecidableEq

/-- `GET /test`.  Modelled from the spec for the store-condition inputs:
`dbAvailable` is whether the `db` handle is non-`None`, `urlSet` whether
`DATABASE_URL` is set, `dbName` the handle's (possibly missing) name, and
`listNames` the outcome of `list_collection_names()` — a collection list or
the raised error's message.  Every branch returns status 200; a listing
failure is reported as a string in the `database` field. -/
def test_database (dbAvailable : Bool) (urlSet : Bool) (dbName : Option String)
    (listNames : Except String (List String)) : Nat × DiagStatus :=
  let status : DiagStatus :=
    ⟨"✅ Running", "❌ Not Available", none, none, "Not Connected", []⟩
  if dbAvailable then
    let status := { status with
      database := "✅ Available",
      database_url := some (if urlSet then "✅ Set" else "❌ Not Set"),
      database_name := some (match dbName with
        | some n => if n = "" then "✅ Connected" else n
        | none => "✅ Connected"),
      connection_status := "Connected" }
    match listNames with
    | .ok cols =>
      (200, { status with collections := cols, database := "✅ Connected & Working" })
    | .error e =>
      (200, { status with database := "⚠️ Connected but Error: " ++ e.take 80 })
  else
    (200, { status with database := "⚠️ Available but not initialized" })

/-- The empty store. -/
def emptyStore : Store := ⟨[], [], [], [], 0⟩

/-- A canonical store identifier, used by the concrete examples below. -/
def idA : String := "000000000000000000000000"

/-- A well-formed identifier matching no stored document in the examples. -/
def idB : String := "ffffffffffffffffffffffff"

/-- A stored menu item priced 10.00, for the concrete examples. -/
def menuDocA : MenuDoc := ⟨idA, "Coffee", none, 10, none, true⟩

/-- A store holding exactly the one menu item `menuDocA`. -/
def stMenuA : Store := ⟨[menuDocA], [], [], [], 1⟩

/-- Order request: three units of the item priced 10.00. -/
def payOrderA : OrderCreate := ⟨none, [⟨idA, 3⟩], none⟩

/-- Order request with quantity zero. -/
def payOrderZeroQ : OrderCreate := ⟨none, [⟨idA, 0⟩], none⟩

/-- Order request with a negative quantity against the item priced 10.00. -/
def payOrderNegQ : OrderCreate := ⟨none, [⟨idA, -1⟩], none⟩

/-- Order request referencing a well-formed but absent menu item id. -/
def payOrderMissing : OrderCreate := ⟨none, [⟨idB, 1⟩], none⟩

/-- Order request carrying a malformed identifier string. -/
def payOrderBadId : OrderCreate := ⟨none, [⟨"not-an-id", 1⟩], none⟩

/-- Menu-creation request with a negative price. -/
def payMenuNeg : MenuCreate := ⟨"Tea", none, -1, none, true⟩

/-- Menu-creation request with price 4.50. -/
def payMenuOk : MenuCreate := ⟨"Latte", none, 9 / 2, none, true⟩

/-- Staff-creation request whose pin is shorter than 4 characters. -/
def payStaffBad : StaffCreate := ⟨"Ann", "cashier", "12"⟩

/-- First inventory upsert for a fresh sku. -/
def invBeans1 : InventoryUpsert := ⟨"beans", 5, "kg", none⟩

/-- Second inventory upsert for the same sku with different fields. -/
def invBeans2 : InventoryUpsert := ⟨"beans", 7, "kg", some 2⟩

/-- A store holding one active and one inactive staff record. -/
def stStaff : Store :=
  ⟨[], [], [], [⟨idA, "Bo", "manager", "1234", true⟩, ⟨idB, "Cy", "chef", "9999", false⟩], 2⟩

/-! ## Helper lemmas -/

theorem rhe_nonneg {x : ℚ} (h : 0 ≤ x) : 0 ≤ rhe x := by
  have h0 : 0 ≤ ⌊x⌋ := Int.floor_nonneg.mpr h
  unfold rhe
  split_ifs <;> omega

theorem round2_nonneg {x : ℚ} (h : 0 ≤ x) : 0 ≤ round2 x := by
  have h1 : 0 ≤ rhe (x * 100) := rhe_nonneg (by positivity)
  have h2 : (0 : ℚ) ≤ (rhe (x * 100) : ℚ) := by exact_mod_cast h1
  exact div_nonneg h2 (by norm_num)

theorem round2_zero : round2 0 = 0 := by norm_num [round2, rhe]

theorem checkIds_ok {l : List OrderItem}
    (h : ∀ it ∈ l, isValidOid it.menu_item_id = true) : checkIds l = .ok () := by
  induction l with
  | nil => rfl
  | cons it rest ih =>
    simp only [checkIds]
    rw [if_pos (h it (List.mem_cons_self it rest))]
    exact ih fun x hx => h x (List.mem_cons_of_mem _ hx)

theorem checkIds_err {l : List OrderItem}
    (h : ∃ it ∈ l, isValidOid it.menu_item_id = false) :
    checkIds l = .error invalidIdErr := by
  induction l with
  | nil => simp at h
  | cons it rest ih =>
    simp only [checkIds]
    cases hv : isValidOid it.menu_item_id with
    | false => simp
    | true =>
      simp only [if_true]
      apply ih
      rcases h with ⟨x, hx, hfx⟩
      rcases List.mem_cons.mp hx with rfl | hx'
      · rw [hv] at hfx; cases hfx
      · exact ⟨x, hx', hfx⟩

theorem buildLines_ok {st : Store} {l : List OrderItem}
    (h : ∀ it ∈ l, ∃ d ∈ st.menuitem, d.id = it.menu_item_id) :
    buildLines st l = .ok (l.map (lineOf st)) := by
  induction l with
  | nil => rfl
  | cons it rest ih =>
    obtain ⟨d, hd, hid⟩ := h it (List.mem_cons_self it rest)
    obtain ⟨m, hm⟩ : ∃ m, st.menuitem.find? (fun d => d.id == it.menu_item_id) = some m := by
      cases hfind : st.menuitem.find? (fun d => d.id == it.menu_item_id) with
      | some m => exact ⟨m, rfl⟩
      | none =>
        rw [List.find?_eq_none] at hfind
        exact absurd (by simpa using hid) (by simpa using hfind d hd)
    simp only [buildLines, hm, ih fun x hx => h x (List.mem_cons_of_mem _ hx)]
    simp [lineOf, menuPriceD, menuTitleD, hm, Except.map]

theorem buildLines_err {st : Store} {l : List OrderItem}
    (h : ∃ it ∈ l, ∀ d ∈ st.menuitem, d.id ≠ it.menu_item_id) :
    ∃ it ∈ l, (∀ d ∈ st.menuitem, d.id ≠ it.menu_item_id) ∧
      buildLines st l = .error ⟨400, "Menu item not found: " ++ it.menu_item_id⟩ := by
  induction l with
  | nil => simp at h
  | cons it rest ih =>
    cases hfind : st.menuitem.find? (fun d => d.id == it.menu_item_id) with
    | none =>
      refine ⟨it, List.mem_cons_self it rest, ?_, ?_⟩
      · rw [List.find?_eq_none] at hfind
        intro d hd
        simpa using hfind d hd
      · simp [buildLines, hfind]
    | some m =>
      have hmem := List.mem_of_find?_eq_some hfind
      have hpm : m.id = it.menu_item_id := by simpa using List.find?_some hfind
      have h' : ∃ x ∈ rest, ∀ d ∈ st.menuitem, d.id ≠ x.menu_item_id := by
        rcases h with ⟨x, hx, hmiss⟩
        rcases List.mem_cons.mp hx with rfl | hx'
        · exact absurd hpm (hmiss m hmem)
        · exact ⟨x, hx', hmiss⟩
      obtain ⟨x, hx, hmiss, herr⟩ := ih h'
      exact ⟨x, List.mem_cons_of_mem _ hx, hmiss, by simp [buildLines, hfind, herr, Except.map]⟩

theorem foldl_lines_eq_sum (l : List OrderLine) (c : ℚ) :
    l.foldl (fun a ln => a + ln.price * (ln.quantity : ℚ)) c
      = c + (l.map fun ln => ln.price * (ln.quantity : ℚ)).sum := by
  induction l generalizing c with
  | nil => simp
  | cons ln rest ih => simp [ih]; ring

theorem menuPriceD_nonneg {st : Store} (hpr : ∀ d ∈ st.menuitem, 0 ≤ d.price)
    (s : String) : 0 ≤ menuPriceD st s := by
  unfold menuPriceD
  cases hfind : st.menuitem.find? (fun d => d.id == s) with
  | none => simp
  | some m => simpa using hpr m (List.mem_of_find?_eq_some hfind)

theorem specSubtotal_nonneg {st : Store} {items : List OrderItem}
    (hpr : ∀ d ∈ st.menuitem, 0 ≤ d.price) (hq : ∀ it ∈ items, 0 ≤ it.quantity) :
    0 ≤ specSubtotal st items := by
  apply List.sum_nonneg
  intro x hx
  simp only [List.mem_map] at hx
  obtain ⟨it, hit, rfl⟩ := hx
  exact mul_nonneg (menuPriceD_nonneg hpr _) (by exact_mod_cast hq it hit)

theorem map_lineOf_prices (st : Store) (items : List OrderItem) :
    ((items.map (lineOf st)).map fun ln => ln.price * (ln.quantity : ℚ)).sum
      = specSubtotal st items := by
  rw [List.map_map]
  rfl

theorem create_order_ok (st : Store) (p : OrderCreate)
    (hval : ∀ it ∈ p.items, isValidOid it.menu_item_id = true)
    (hpres : ∀ it ∈ p.items, ∃ d ∈ st.menuitem, d.id = it.menu_item_id)
    (hsub : 0 ≤ specSubtotal st p.items) :
    create_order st p =
      .ok ({ st with
              order := st.order ++
                [⟨oidString st.nextId, p.staff_id, p.items.map (lineOf st),
                  round2 (specSubtotal st p.items),
                  round2 (specSubtotal st p.items * (7 / 100)),
                  round2 (specSubtotal st p.items +
                    round2 (specSubtotal st p.items * (7 / 100))),
                  "open", p.note⟩],
              nextId := st.nextId + 1 },
           ⟨oidString st.nextId, round2 (specSubtotal st p.items),
             round2 (specSubtotal st p.items * (7 / 100)),
             round2 (specSubtotal st p.items +
               round2 (specSubtotal st p.items * (7 / 100)))⟩) := by
  have hsum : (p.items.map (lineOf st)).foldl (fun a ln => a + ln.price * (ln.quantity : ℚ)) 0
      = specSubtotal st p.items := by
    rw [foldl_lines_eq_sum, zero_add, map_lineOf_prices]
  have htax : 0 ≤ round2 (specSubtotal st p.items * (7 / 100)) :=
    round2_nonneg (mul_nonneg hsub (by norm_num))
  simp only [create_order, checkIds_ok hval, buildLines_ok hpres, hsum]
  rw [if_neg]
  push_neg
  exact ⟨round2_nonneg hsub, htax, round2_nonneg (add_nonneg hsub htax)⟩

/-! ## Claim theorems -/

/-- C1.  For an order-creation request whose items all reference existing menu
items (the store's records being well-formed: valid ids, non-negative prices)
with non-negative quantities, creation succeeds and both the returned body and
the stored order record carry subtotal = round2(Σ pᵢ·qᵢ),
tax = round2(subtotal·0.07) and total = round2(subtotal + tax), where the sum
Σ pᵢ·qᵢ is accumulated in full precision and rounded only at these
boundaries. -/
theorem order_pricing_formula (st : Store) (p : OrderCreate)
    (hids : ∀ d ∈ st.menuitem, isValidOid d.id = true)
    (hpr : ∀ d ∈ st.menuitem, 0 ≤ d.price)
    (hpres : ∀ it ∈ p.items, ∃ d ∈ st.menuitem, d.id = it.menu_item_id)
    (hq : ∀ it ∈ p.items, 0 ≤ it.quantity) :
    ∃ st1 r, create_order st p = .ok (st1, r) ∧
      r.subtotal = round2 (specSubtotal st p.items) ∧
      r.tax = round2 (specSubtotal st p.items * (7 / 100)) ∧
      r.total = round2 (specSubtotal st p.items + r.tax) ∧
      ∃ ls, st1.order = st.order ++
        [⟨r.id, p.staff_id, ls, r.subtotal, r.tax, r.total, "open", p.note⟩] := by
  have hval : ∀ it ∈ p.items, isValidOid it.menu_item_id = true := by
    intro it hit
    obtain ⟨d, hd, hid⟩ := hpres it hit
    exact hid ▸ hids d hd
  refine ⟨_, _, create_order_ok st p hval hpres (specSubtotal_nonneg hpr hq),
    rfl, rfl, rfl, p.items.map (lineOf st), rfl⟩

theorem specSubtotal_stMenuA : specSubtotal stMenuA payOrderA.items = 30 := by
  simp [specSubtotal, menuPriceD, stMenuA, menuDocA, payOrderA, idA]
  norm_num

/-- C1 witness: one item priced 10.00 with quantity 3 satisfies the theorem,
and the returned subtotal/tax/total evaluate to 30.00, 2.10 and 32.10. -/
theorem order_pricing_formula_example :
    (∃ st1 r, create_order stMenuA payOrderA = .ok (st1, r) ∧
      r.subtotal = round2 (specSubtotal stMenuA payOrderA.items) ∧
      r.tax = round2 (specSubtotal stMenuA payOrderA.items * (7 / 100)) ∧
      r.total = round2 (specSubtotal stMenuA payOrderA.items + r.tax) ∧
      ∃ ls, st1.order = stMenuA.order ++
        [⟨r.id, payOrderA.staff_id, ls, r.subtotal, r.tax, r.total, "open",
          payOrderA.note⟩]) ∧
    ((create_order stMenuA payOrderA).toOption.map fun x =>
        (x.2.subtotal, x.2.tax, x.2.total)) = some (30, 21 / 10, 321 / 10) := by
  constructor
  · exact order_pricing_formula stMenuA payOrderA (by decide)
      (by norm_num [stMenuA, menuDocA]) (by decide) (by decide)
  · rw [create_order_ok stMenuA payOrderA (by decide) (by decide)
      (by rw [specSubtotal_stMenuA]; norm_num)]
    simp only [Except.toOption, Option.map, specSubtotal_stMenuA]
    norm_num [round2, rhe]

/-- C2.  An order-creation request whose identifiers are all well-formed but
which references a menu item absent from the store fails with a 400 whose
detail names a missing identifier, and the store — in particular the order
collection — is unchanged. -/
theorem order_missing_item_400 (st : Store) (p : OrderCreate)
    (hval : ∀ it ∈ p.items, isValidOid it.menu_item_id = true)
    (hmiss : ∃ it ∈ p.items, ∀ d ∈ st.menuitem, d.id ≠ it.menu_item_id) :
    ∃ it ∈ p.items, (∀ d ∈ st.menuitem, d.id ≠ it.menu_item_id) ∧
      create_order_endpoint st p =
        (st, 400, .error ⟨400, "Menu item not found: " ++ it.menu_item_id⟩) := by
  obtain ⟨it, hit, hm, herr⟩ := buildLines_err hmiss
  refine ⟨it, hit, hm, ?_⟩
  simp only [create_order_endpoint, create_order, checkIds_ok hval, herr]

/-- C2 witness: against the store holding only the item `idA`, a request
naming the absent id `idB` fails with 400 "Menu item not found: <idB>" and
leaves the store unchanged. -/
theorem order_missing_item_400_example :
    ∃ it ∈ payOrderMissing.items,
      (∀ d ∈ stMenuA.menuitem, d.id ≠ it.menu_item_id) ∧
      create_order_endpoint stMenuA payOrderMissing =
        (stMenuA, 400, .error ⟨400, "Menu item not found: " ++ it.menu_item_id⟩) :=
  order_missing_item_400 stMenuA payOrderMissing (by decide) (by decide)

/-- C6.  An order-creation request carrying any malformed identifier string
fails with exactly 400 "Invalid id" (in particular never a 500), leaving the
store unchanged. -/
theorem invalid_id_400 (st : Store) (p : OrderCreate)
    (h : ∃ it ∈ p.items, isValidOid it.menu_item_id = false) :
    create_order_endpoint st p = (st, 400, .error invalidIdErr) := by
  simp only [create_order_endpoint, create_order, checkIds_err h]
  rfl

/-- C6 witness: the identifier "not-an-id" yields 400 "Invalid id". -/
theorem invalid_id_400_example :
    create_order_endpoint stMenuA payOrderBadId = (stMenuA, 400, .error invalidIdErr) :=
  invalid_id_400 stMenuA payOrderBadId (by decide)

/-- C10.  An order-creation request with an empty items list succeeds with
status 201, persisting and returning an order with subtotal, tax and total
all equal to 0. -/
theorem empty_order_created (st : Store) (sid note : Option String) :
    create_order_endpoint st ⟨sid, [], note⟩ =
      ({ st with
          order := st.order ++ [⟨oidString st.nextId, sid, [], 0, 0, 0, "open", note⟩],
          nextId := st.nextId + 1 },
       201, .ok ⟨oidString st.nextId, 0, 0, 0⟩) := by
  simp [create_order_endpoint, create_order, checkIds, buildLines, round2_zero]

theorem foldl_map_lineOf (st : Store) (items : List OrderItem) :
    (items.map (lineOf st)).foldl (fun a ln => a + ln.price * (ln.quantity : ℚ)) 0
      = specSubtotal st items := by
  rw [foldl_lines_eq_sum, zero_add, map_lineOf_prices]

/-- C7 counterexample: against the store holding one menu item priced 10.00,
an order for quantity −1 of it does not succeed — the stored `Order` model's
non-negativity constraints raise, a framework-default 500, and nothing is
persisted. -/
theorem order_neg_qty_500 :
    create_order_endpoint stMenuA payOrderNegQ = (stMenuA, 500, .error serverErr) := by
  have h2 : buildLines stMenuA payOrderNegQ.items = .ok [⟨idA, -1, 10, "Coffee"⟩] := by
    simp [buildLines, stMenuA, menuDocA, payOrderNegQ, idA, Except.map]
  have h3 : create_order stMenuA payOrderNegQ = .error serverErr := by
    simp only [create_order, @checkIds_ok payOrderNegQ.items (by decide), h2]
    norm_num [round2, rhe]
  simp [create_order_endpoint, h3, serverErr]

/-- C7 amended.  Order creation itself applies no positivity validation to
quantities: against a well-formed store, any request whose items all reference
existing menu items succeeds whenever every quantity is ≥ 0 (zero included);
but when the computed subtotal rounds to a negative value — e.g. a negative
quantity times a positive price — the stored `Order` model's non-negativity
constraint raises inside the handler and the request fails with a
framework-default 500 instead of succeeding. -/
theorem order_quantity_gap (st : Store) (p : OrderCreate)
    (hids : ∀ d ∈ st.menuitem, isValidOid d.id = true)
    (hpr : ∀ d ∈ st.menuitem, 0 ≤ d.price)
    (hpres : ∀ it ∈ p.items, ∃ d ∈ st.menuitem, d.id = it.menu_item_id) :
    ((∀ it ∈ p.items, 0 ≤ it.quantity) →
        ∃ st1 r, create_order st p = .ok (st1, r)) ∧
    (round2 (specSubtotal st p.items) < 0 →
        create_order st p = .error serverErr) := by
  have hval : ∀ it ∈ p.items, isValidOid it.menu_item_id = true := by
    intro it hit
    obtain ⟨d, hd, hid⟩ := hpres it hit
    exact hid ▸ hids d hd
  constructor
  · intro hq
    exact ⟨_, _, create_order_ok st p hval hpres (specSubtotal_nonneg hpr hq)⟩
  · intro hneg
    simp only [create_order, checkIds_ok hval, buildLines_ok hpres, foldl_map_lineOf]
    rw [if_pos (Or.inl hneg)]

theorem specSubtotal_negQ : round2 (specSubtotal stMenuA payOrderNegQ.items) < 0 := by
  simp [specSubtotal, menuPriceD, stMenuA, menuDocA, payOrderNegQ, idA]
  norm_num [round2, rhe]

/-- C7 amended witness: quantity 0 is accepted (the order succeeds), and the
quantity −1 request fails with the framework-default 500. -/
theorem order_quantity_gap_example :
    (∃ st1 r, create_order stMenuA payOrderZeroQ = .ok (st1, r)) ∧
    create_order stMenuA payOrderNegQ = .error serverErr :=
  ⟨(order_quantity_gap stMenuA payOrderZeroQ (by decide)
      (by norm_num [stMenuA, menuDocA]) (by decide)).1 (by decide),
   (order_quantity_gap stMenuA payOrderNegQ (by decide)
      (by norm_num [stMenuA, menuDocA]) (by decide)).2 specSubtotal_negQ⟩

/-- C4 counterexample: a menu-creation request with price −1 and a
staff-creation request with a 2-character pin are both rejected with a
framework-default 500 (the uncaught storage-model `ValidationError`), not
with a 422 request-validation error; no record is persisted. -/
theorem schema_violation_not_422 :
    create_menu_item_endpoint emptyStore payMenuNeg = (emptyStore, 500, .error serverErr) ∧
    create_staff_endpoint emptyStore payStaffBad = (emptyStore, 500, .error serverErr) := by
  constructor
  · have h : create_menu_item emptyStore payMenuNeg = .error serverErr := by
      unfold create_menu_item
      rw [if_pos (by norm_num [payMenuNeg])]
    simp [create_menu_item_endpoint, h, serverErr]
  · have h : create_staff emptyStore payStaffBad = .error serverErr := by
      unfold create_staff
      rw [if_pos (by decide)]
    simp [create_staff_endpoint, h, serverErr]

/-- C4 amended.  A menu-creation request with a negative price, and a
staff-creation request with a pin shorter than 4 or longer than 8 characters,
are rejected with no record persisted — but by a framework-default 500 from
the storage-model validation inside the handler (the request models carry no
such constraints), not by a 422 framework validation error. -/
theorem schema_violation_500 (st : Store) (pm : MenuCreate) (ps : StaffCreate) :
    (pm.price < 0 → create_menu_item_endpoint st pm = (st, 500, .error serverErr)) ∧
    ((ps.pin.length < 4 ∨ 8 < ps.pin.length) →
        create_staff_endpoint st ps = (st, 500, .error serverErr)) := by
  constructor
  · intro h
    unfold create_menu_item_endpoint create_menu_item
    rw [if_pos h]
    rfl
  · intro h
    unfold create_staff_endpoint create_staff
    rw [if_pos h]
    rfl

/-- C4 amended witness: price −1 and pin "12" each produce the 500 with the
store unchanged. -/
theorem schema_violation_500_example :
    create_menu_item_endpoint stMenuA payMenuNeg = (stMenuA, 500, .error serverErr) ∧
    create_staff_endpoint stMenuA payStaffBad = (stMenuA, 500, .error serverErr) :=
  ⟨(schema_violation_500 stMenuA payMenuNeg payStaffBad).1 (by norm_num [payMenuNeg]),
   (schema_violation_500 stMenuA payMenuNeg payStaffBad).2 (by decide)⟩

theorem find?_append_none {α : Type} {l l' : List α} {p : α → Bool}
    (h : l.find? p = none) : (l ++ l').find? p = l'.find? p := by
  rw [List.find?_append, h]
  rfl

theorem updateById_append_fresh {l : List InvDoc} {i : String}
    (h : ∀ d ∈ l, d.id ≠ i) (l' : List InvDoc) (item : InventoryUpsert) :
    updateById (l ++ l') i item = l ++ updateById l' i item := by
  induction l with
  | nil => rfl
  | cons d rest ih =>
    have hd : (d.id == i) = false := by
      simpa using h d (List.mem_cons_self d rest)
    simp only [List.cons_append, updateById, hd, Bool.false_eq_true, if_false]
    simp [ih fun x hx => h x (List.mem_cons_of_mem _ hx)]

/-- C3.  For a sku not yet in the inventory collection, an upsert appends
exactly one new record and returns its fresh identifier; a second upsert with
the same sku overwrites quantity, unit and reorder_level of that same record
in place, returns the same identifier, and creates no second record. -/
theorem inventory_upsert_sku (st : Store) (i1 i2 : InventoryUpsert)
    (hsku : i2.sku = i1.sku)
    (hnew : ∀ d ∈ st.inventory, d.sku ≠ i1.sku)
    (hfresh : ∀ d ∈ st.inventory, d.id ≠ oidString st.nextId) :
    ∃ st1 r1 st2 r2,
      upsert_inventory st i1 = (st1, r1) ∧
      upsert_inventory st1 i2 = (st2, r2) ∧
      st1.inventory = st.inventory ++
        [⟨r1.id, i1.sku, i1.quantity, i1.unit, i1.reorder_level⟩] ∧
      r2.id = r1.id ∧
      st2.inventory = st.inventory ++
        [⟨r1.id, i1.sku, i2.quantity, i2.unit, i2.reorder_level⟩] := by
  have hf1 : st.inventory.find? (fun d => d.sku == i1.sku) = none := by
    rw [List.find?_eq_none]
    intro d hd
    simpa using hnew d hd
  have hu1 : upsert_inventory st i1 =
      ({ st with
          inventory := st.inventory ++
            [⟨oidString st.nextId, i1.sku, i1.quantity, i1.unit, i1.reorder_level⟩],
          nextId := st.nextId + 1 },
       ⟨oidString st.nextId⟩) := by
    simp only [upsert_inventory, hf1]
  have hf2 : (st.inventory ++
      [(⟨oidString st.nextId, i1.sku, i1.quantity, i1.unit, i1.reorder_level⟩ : InvDoc)]).find?
        (fun d => d.sku == i2.sku) =
      some ⟨oidString st.nextId, i1.sku, i1.quantity, i1.unit, i1.reorder_level⟩ := by
    rw [find?_append_none (by rw [hsku]; exact hf1)]
    simp [hsku]
  have hupd : updateById
      (st.inventory ++
        [(⟨oidString st.nextId, i1.sku, i1.quantity, i1.unit, i1.reorder_level⟩ : InvDoc)])
      (oidString st.nextId) i2 =
      st.inventory ++
        [⟨oidString st.nextId, i1.sku, i2.quantity, i2.unit, i2.reorder_level⟩] := by
    rw [updateById_append_fresh hfresh]
    simp [updateById]
  have hu2 : upsert_inventory
      ({ st with
          inventory := st.inventory ++
            [⟨oidString st.nextId, i1.sku, i1.quantity, i1.unit, i1.reorder_level⟩],
          nextId := st.nextId + 1 }) i2 =
      ({ st with
          inventory := st.inventory ++
            [⟨oidString st.nextId, i1.sku, i2.quantity, i2.unit, i2.reorder_level⟩],
          nextId := st.nextId + 1 },
       ⟨oidString st.nextId⟩) := by
    simp [upsert_inventory, hf2, hupd]
  exact ⟨_, _, _, _, hu1, hu2, rfl, rfl, rfl⟩

/-- C3 witness: two upserts for the fresh sku "beans" against the empty store
create one record and then update it in place under the same identifier. -/
theorem inventory_upsert_sku_example :
    ∃ st1 r1 st2 r2,
      upsert_inventory emptyStore invBeans1 = (st1, r1) ∧
      upsert_inventory st1 invBeans2 = (st2, r2) ∧
      st1.inventory = emptyStore.inventory ++
        [⟨r1.id, invBeans1.sku, invBeans1.quantity, invBeans1.unit,
          invBeans1.reorder_level⟩] ∧
      r2.id = r1.id ∧
      st2.inventory = emptyStore.inventory ++
        [⟨r1.id, invBeans1.sku, invBeans2.quantity, invBeans2.unit,
          invBeans2.reorder_level⟩] :=
  inventory_upsert_sku emptyStore invBeans1 invBeans2 rfl (by simp [emptyStore])
    (by simp [emptyStore])

/-- C5.  Login with a pin carried by some active staff record succeeds,
returning the id, name and role of a staff record with that pin and
`is_active = true`; when no stored record has both that exact pin and
`is_active = true` — in particular when the pin belongs only to inactive
records — login fails with 401 and the fixed detail "Invalid PIN". -/
theorem login_pin_auth (st : Store) (pin : String) :
    ((∃ d ∈ st.staff, d.pin = pin ∧ d.is_active = true) →
      ∃ r, login st pin = .ok r ∧
        ∃ d ∈ st.staff, d.pin = pin ∧ d.is_active = true ∧
          r = ⟨d.id, d.name, d.role⟩) ∧
    ((∀ d ∈ st.staff, ¬(d.pin = pin ∧ d.is_active = true)) →
      login st pin = .error ⟨401, "Invalid PIN"⟩) := by
  constructor
  · intro hex
    cases hfind : st.staff.find? (fun d => d.pin == pin && d.is_active) with
    | none =>
      rw [List.find?_eq_none] at hfind
      obtain ⟨d, hd, hpin, hact⟩ := hex
      exact absurd (by simp [hpin, hact]) (hfind d hd)
    | some d =>
      have hp := List.find?_some hfind
      simp only [Bool.and_eq_true, beq_iff_eq] at hp
      exact ⟨⟨d.id, d.name, d.role⟩, by simp [login, hfind],
        d, List.mem_of_find?_eq_some hfind, hp.1, hp.2, rfl⟩
  · intro hall
    have hf : st.staff.find? (fun d => d.pin == pin && d.is_active) = none := by
      rw [List.find?_eq_none]
      intro d hd
      have := hall d hd
      simp only [Bool.and_eq_true, beq_iff_eq]
      tauto
    simp [login, hf]

/-- C5 witness: pin "1234" (active record) logs in; pin "9999" (only an
inactive record) and pin "0000" (no record) both yield 401 "Invalid PIN". -/
theorem login_pin_auth_example :
    (∃ r, login stStaff "1234" = .ok r ∧
      ∃ d ∈ stStaff.staff, d.pin = "1234" ∧ d.is_active = true ∧
        r = ⟨d.id, d.name, d.role⟩) ∧
    login stStaff "9999" = .error ⟨401, "Invalid PIN"⟩ ∧
    login stStaff "0000" = .error ⟨401, "Invalid PIN"⟩ :=
  ⟨(login_pin_auth stStaff "1234").1 (by decide),
   (login_pin_auth stStaff "9999").2 (by decide),
   (login_pin_auth stStaff "0000").2 (by decide)⟩

/-- C8.  For every store, creating a menu item with price ≥ 0 succeeds, and
listing the menu afterwards includes a record with the created title, exactly
the created price, and the identifier the creation returned (in string
form). -/
theorem menu_create_list_roundtrip (st : Store) (p : MenuCreate) (h : 0 ≤ p.price) :
    ∃ st1 r, create_menu_item st p = .ok (st1, r) ∧
      ∃ d ∈ list_menu st1, d.title = p.title ∧ d.price = p.price ∧ d.id = r.id := by
  have hok : create_menu_item st p =
      .ok ({ st with
              menuitem := st.menuitem ++
                [⟨oidString st.nextId, p.title, p.description, p.price, p.category,
                  p.available⟩],
              nextId := st.nextId + 1 },
           ⟨oidString st.nextId⟩) := by
    unfold create_menu_item
    rw [if_neg (not_lt.mpr h)]
  exact ⟨_, _, hok,
    ⟨oidString st.nextId, p.title, p.description, p.price, p.category, p.available⟩,
    by simp [list_menu], rfl, rfl, rfl⟩

/-- C8 witness: creating "Latte" at price 4.50 in the empty store and listing
the menu returns it with exactly that price and the returned identifier. -/
theorem menu_create_list_roundtrip_example :
    ∃ st1 r, create_menu_item emptyStore payMenuOk = .ok (st1, r) ∧
      ∃ d ∈ list_menu st1, d.title = payMenuOk.title ∧ d.price = payMenuOk.price ∧
        d.id = r.id :=
  menu_create_list_roundtrip emptyStore payMenuOk (by norm_num [payMenuOk])

/-- C9.  The diagnostics endpoint returns HTTP 200 under every store
condition — store handle missing or present, collection listing succeeding or
raising — and when the listing raises, the error text is reported (truncated
to 80 characters) inside the response body's `database` field. -/
theorem diagnostics_always_200 (a u : Bool) (n : Option String)
    (l : Except String (List String)) :
    (test_database a u n l).1 = 200 ∧
    (∀ e, a = true → l = .error e →
      (test_database a u n l).2.database = "⚠️ Connected but Error: " ++ e.take 80) := by
  constructor
  · cases a <;> cases l <;> simp [test_database]
  · rintro e rfl rfl
    simp [test_database]

/-- C9 witness: with the handle present and the listing raising "boom", the
status is 200 and the body's `database` field reports the error text. -/
theorem diagnostics_always_200_example :
    (test_database true true none (.error "boom")).1 = 200 ∧
    (test_database true true none (.error "boom")).2.database =
      "⚠️ Connected but Error: " ++ "boom".take 80 :=
  ⟨(diagnostics_always_200 true true none (.error "boom")).1,
   (diagnostics_always_200 true true none (.error "boom")).2 "boom" rfl rfl⟩

end Cafeteria
